import Mathlib

/-!
Verification of the microservice process supervisor embedded in
`claude_v4.py` and `claude_v3.py` (repository `microservice_control_panel`).

The supervisor core is shallowly embedded: the registry of running
services (`MainWindow.running_services`) is an association list,
OS processes are abstracted by a behaviour record (`Proc`) saying what
each OS call does to/for them (does the process exit within the bounded
grace wait, does delivering a signal raise an exception, and so on),
and each Python method becomes a pure function from registry (or
supervisor state) to registry plus a trace of externally visible
events (signals sent, waits performed, log messages emitted).
-/

namespace MCP

/-- Behaviour of one managed OS process, abstracting the outcomes of the
OS calls the supervisor performs on it:
`alive` is the result of `poll() is None`; `exitsInGrace` says whether a
bounded `wait(timeout)` after a graceful signal returns before timing out;
`gracefulSigFails` (resp. `forcefulSigFails`) says whether delivering the
graceful (resp. forceful) signal raises an exception. -/
structure Proc where
  pid : Nat
  alive : Bool
  exitsInGrace : Bool
  gracefulSigFails : Bool
  forcefulSigFails : Bool
deriving DecidableEq, Repr

/-- `MainWindow.running_services`: a mapping from service name to its
managed process, modelled as an association list in insertion order
(Python dicts preserve insertion order). -/
abbrev Registry := List (String × Proc)

/-- Dict membership test `name in self.running_services`. -/
def hasEntry (reg : Registry) (name : String) : Bool :=
  reg.any (fun pr => pr.1 = name)

/-- Dict read `self.running_services[name]` (first binding). -/
def lookupEntry (reg : Registry) (name : String) : Option Proc :=
  (reg.find? (fun pr => pr.1 = name)).map (fun pr => pr.2)

/-- Dict write `self.running_services[name] = process` for a fresh name. -/
def insertEntry (reg : Registry) (name : String) (p : Proc) : Registry :=
  reg ++ [(name, p)]

/-- Dict delete `del self.running_services[name]`. -/
def removeEntry (reg : Registry) (name : String) : Registry :=
  reg.filter (fun pr => pr.1 ≠ name)

/-- Kinds of signal the supervisor sends. -/
inductive Sig
  | term
  | kill
deriving DecidableEq, Repr

/-- The status-log messages the supervisor emits
(`log_status` calls; formatting abstracted to the message kind). -/
inductive LogMsg
  | alreadyRunning (name : String)
  | started (name : String)
  | failedStart (name : String)
  | notRunning (name : String)
  | stopped (name : String)
  | failedStop (name : String)
  | errorStopping (name : String)
deriving DecidableEq, Repr

/-- Externally visible events of a supervisor operation, in order:
process-creation attempts (`subprocess.Popen`), successful spawns
(with whether the child was placed in a new process group/session),
signal sends (with whether they are group-directed), bounded and
unbounded waits, log messages, and the application-quit request. -/
inductive Event
  | spawnAttempt (name : String)
  | spawned (name : String) (pid : Nat) (newGroup : Bool)
  | sigSent (pid : Nat) (s : Sig) (group : Bool)
  | waitBounded (timeout : Nat)
  | waitUnbounded
  | logMsg (m : LogMsg)
  | appQuit
deriving DecidableEq, Repr

/-- `MainWindow.start_service` of `claude_v4.py` (lines 476-497).
`spawn` models `subprocess.Popen([sys.executable, name], ...,
preexec_fn=os.setsid)`: `none` means `Popen` raised, `some p` a
successful spawn of a process behaving like `p`.  On the POSIX platform
modelled here `os.setsid` exists, so the child is started in a new
session (`newGroup := true`). The registry is written only after a
successful spawn. -/
def start_service_v4 (spawn : String → Option Proc) (reg : Registry)
    (name : String) : Registry × List Event :=
  if hasEntry reg name then
    (reg, [.logMsg (.alreadyRunning name)])
  else
    match spawn name with
    | none => (reg, [.spawnAttempt name, .logMsg (.failedStart name)])
    | some p =>
        (insertEntry reg name p,
         [.spawnAttempt name, .spawned name p.pid true, .logMsg (.started name)])

/-- `MainWindow.start_service` of `claude_v3.py` (lines 435-451):
identical control flow, but the `Popen` call has no `preexec_fn`, so the
child stays in the parent's process group (`newGroup := false`). -/
def start_service_v3 (spawn : String → Option Proc) (reg : Registry)
    (name : String) : Registry × List Event :=
  if hasEntry reg name then
    (reg, [.logMsg (.alreadyRunning name)])
  else
    match spawn name with
    | none => (reg, [.spawnAttempt name, .logMsg (.failedStart name)])
    | some p =>
        (insertEntry reg name p,
         [.spawnAttempt name, .spawned name p.pid false, .logMsg (.started name)])

/-- `MainWindow.stop_service` of `claude_v4.py` (lines 499-537), on the
POSIX platform (`hasattr(os, 'killpg')` is true, so both signals are
group-directed).  Control flow of the Python `try`/`except`:
if the name is absent, log "not running"; otherwise send SIGTERM to the
process group (an exception here jumps to the outer handler, which logs
the failure and still deletes the entry), `wait(timeout=5)`; on
`TimeoutExpired` send SIGKILL to the group (an exception again reaches
the outer handler, which deletes the entry) and `wait()` unboundedly;
then delete the entry and log "Stopped". -/
def stop_service_v4 (reg : Registry) (name : String) : Registry × List Event :=
  match lookupEntry reg name with
  | none => (reg, [.logMsg (.notRunning name)])
  | some p =>
      if p.gracefulSigFails then
        (removeEntry reg name, [.logMsg (.failedStop name)])
      else if p.exitsInGrace then
        (removeEntry reg name,
         [.sigSent p.pid .term true, .waitBounded 5, .logMsg (.stopped name)])
      else if p.forcefulSigFails then
        (removeEntry reg name,
         [.sigSent p.pid .term true, .waitBounded 5, .logMsg (.failedStop name)])
      else
        (removeEntry reg name,
         [.sigSent p.pid .term true, .waitBounded 5,
          .sigSent p.pid .kill true, .waitUnbounded, .logMsg (.stopped name)])

/-- `MainWindow.stop_service` of `claude_v3.py` (lines 453-470):
`process.terminate()` (single-process, not group-directed), then
`process.wait(timeout=5)`, then delete the entry — all inside one
`try`.  There is no forceful phase: a `TimeoutExpired` from the bounded
wait is caught by the generic `except`, which only logs the failure, so
the registry entry is kept. -/
def stop_service_v3 (reg : Registry) (name : String) : Registry × List Event :=
  match lookupEntry reg name with
  | none => (reg, [.logMsg (.notRunning name)])
  | some p =>
      if p.gracefulSigFails then
        (reg, [.logMsg (.failedStop name)])
      else if p.exitsInGrace then
        (removeEntry reg name,
         [.sigSent p.pid .term false, .waitBounded 5, .logMsg (.stopped name)])
      else
        (reg, [.sigSent p.pid .term false, .waitBounded 5, .logMsg (.failedStop name)])

/-- Python's `value.split(',')` on the character list: cut the string at
every comma, keeping empty pieces. -/
def splitCommaAux : List Char → List Char → List (List Char)
  | [], acc => [acc.reverse]
  | c :: rest, acc =>
      if c = ',' then acc.reverse :: splitCommaAux rest []
      else splitCommaAux rest (c :: acc)

/-- `value.split(',')` as a function on strings. -/
def pySplit (s : String) : List String :=
  (splitCommaAux s.data []).map (fun cs => String.mk cs)

/-- Python's `str.strip()`: drop leading and trailing whitespace. -/
def pyStrip (s : String) : String :=
  String.mk (((s.data.dropWhile Char.isWhitespace).reverse.dropWhile
    Char.isWhitespace).reverse)

/-- The comma-separated configuration lists, parsed as in
`[ms.strip() for ms in value.split(',') if ms.strip()]`
(`claude_v4.py` lines 470-471): split on commas, strip each piece, keep
the non-empty ones. -/
def parseList (s : String) : List String :=
  ((pySplit s).map pyStrip).filter (fun ms => ms ≠ "")

/-- One iteration of the `auto_start_services` loop: call
`start_service` on the next configured name, threading the registry and
appending the emitted events. -/
def autoStartStep (spawn : String → Option Proc) (acc : Registry × List Event)
    (n : String) : Registry × List Event :=
  let step := start_service_v4 spawn acc.1 n
  (step.1, acc.2 ++ step.2)

/-- `MainWindow.auto_start_services` of `claude_v4.py` (lines 468-474):
split the configured `auto_start` value and call `start_service` once per
resulting name, in order, accumulating the event trace.  There is no
check of the names against the configured `microservices` list. -/
def auto_start_services (spawn : String → Option Proc) (autoStartCfg : String)
    (reg : Registry) : Registry × List Event :=
  (parseList autoStartCfg).foldl (autoStartStep spawn) (reg, [])

/-- The supervisor-relevant fields of `MainWindow`: the registry of
running services and the `is_closing` flag. -/
structure SupState where
  reg : Registry
  isClosing : Bool
deriving DecidableEq, Repr

/-- The per-service body of the `cleanup_all_processes` loop
(`claude_v4.py` lines 270-282): skip processes whose `poll()` shows them
already dead; otherwise `terminate()` (single-process), `wait(timeout=3)`,
and on `TimeoutExpired` `kill()` followed by an unbounded `wait()`; any
exception is caught per-service, logged, and the loop continues. -/
def cleanupOne (pr : String × Proc) : List Event :=
  if pr.2.alive then
    if pr.2.gracefulSigFails then
      [.logMsg (.errorStopping pr.1)]
    else if pr.2.exitsInGrace then
      [.sigSent pr.2.pid .term false, .waitBounded 3]
    else if pr.2.forcefulSigFails then
      [.sigSent pr.2.pid .term false, .waitBounded 3, .logMsg (.errorStopping pr.1)]
    else
      [.sigSent pr.2.pid .term false, .waitBounded 3,
       .sigSent pr.2.pid .kill false, .waitUnbounded]
  else []

/-- `MainWindow.cleanup_all_processes` of `claude_v4.py` (lines 262-285):
return immediately if `is_closing` is already set; otherwise set it,
sweep every registry entry with the graceful-then-forceful teardown, and
clear the registry. -/
def cleanup_all_processes (st : SupState) : SupState × List Event :=
  if st.isClosing then (st, [])
  else (⟨[], true⟩, (st.reg.map cleanupOne).flatten)

/-- `MainWindow.stop_all_services` of `claude_v4.py` (lines 569-576):
return immediately if `is_closing` is set; otherwise snapshot the
registered names and call `stop_service` on each. -/
def stop_all_services (st : SupState) : SupState × List Event :=
  if st.isClosing then (st, [])
  else
    let swept := (st.reg.map (fun pr => pr.1)).foldl
      (fun acc n =>
        let step := stop_service_v4 acc.1 n
        (step.1, acc.2 ++ step.2))
      (st.reg, [])
    (⟨swept.1, st.isClosing⟩, swept.2)

/-- `MainWindow.closeEvent` of `claude_v4.py` (lines 599-603): run
`cleanup_all_processes` unless `is_closing` is already set, then accept
the close. -/
def closeEvent (st : SupState) : SupState × List Event :=
  if st.isClosing then (st, []) else cleanup_all_processes st

/-- `start_service` lifted to the supervisor state: the Python method
reads and writes only `running_services` and never consults
`is_closing`. -/
def start_service_state (spawn : String → Option Proc) (st : SupState)
    (name : String) : SupState × List Event :=
  let step := start_service_v4 spawn st.reg name
  (⟨step.1, st.isClosing⟩, step.2)

/-- `signal_handler` of `claude_v4.py` (lines 848-858): run
`cleanup_all_processes` on the main window, then quit the application
and exit. -/
def signal_handler_step (st : SupState) : SupState × List Event :=
  let step := cleanup_all_processes st
  (step.1, step.2 ++ [.appQuit])

/-- Disposition of an OS signal after the handler installation in
`main`: either the process-wide graceful-shutdown handler
(`signal_handler`) or the OS default disposition (`signal.SIG_DFL`,
which terminates the process without running any Python code). -/
inductive Handler
  | defaultDisposition
  | gracefulShutdownHandler
deriving DecidableEq, Repr

/-- The two OS signals `main` configures. -/
inductive OsSig
  | sigint
  | sigterm
deriving DecidableEq, Repr

/-- The sequence of `signal.signal` calls in `main` of `claude_v4.py`
(lines 865-869), in program order: install `signal_handler` on SIGINT,
install it on SIGTERM, then reset SIGINT to `signal.SIG_DFL`. -/
def mainHandlerSetup : List (OsSig × Handler) :=
  [(.sigint, .gracefulShutdownHandler),
   (.sigterm, .gracefulShutdownHandler),
   (.sigint, .defaultDisposition)]

/-- The disposition each signal is left with when `main` starts the Qt
event loop: the last `signal.signal` call for that signal wins. -/
def installedHandler (s : OsSig) : Handler :=
  mainHandlerSetup.foldl (fun acc pr => if pr.1 = s then pr.2 else acc)
    .defaultDisposition

/-- Threads of the process: the Qt GUI thread, which runs the event loop
and delivers button-click slots, and a worker thread started via
`QThread`. -/
inductive ExecThread
  | guiThread
  | workerThread
deriving DecidableEq, Repr

/-- How a piece of work is dispatched in the source: as a plain
synchronous method call, or by starting a `QThread`. -/
inductive DispatchKind
  | directCall
  | qthreadStart
deriving DecidableEq, Repr

/-- The thread a dispatched callee runs on. -/
def calleeThread (caller : ExecThread) : DispatchKind → ExecThread
  | .directCall => caller
  | .qthreadStart => .workerThread

/-- The four lifecycle operations of the supervisor. -/
inductive LifecycleOp
  | startOne
  | stopOne
  | startAll
  | stopAll
deriving DecidableEq, Repr

/-- How each lifecycle operation is dispatched in `claude_v4.py`: every
button slot (`start_selected_service` line 548, `stop_selected_service`
line 555, `start_all_services` line 562, `stop_all_services` line 569)
invokes `start_service`/`stop_service` with a plain method call; no
thread or task is created anywhere on these paths. -/
def lifecycleDispatch : LifecycleOp → DispatchKind := fun _ => .directCall

/-- How the configuration loader is dispatched: `SplashScreen`
constructs a `ConfigLoader` (a `QThread` subclass) and `start_loading`
calls its `start()`. -/
def configLoaderDispatch : DispatchKind := .qthreadStart

/-- The thread on which a lifecycle operation (and every blocking wait
inside it) executes: the button slots are delivered on the GUI event
thread, and the operations run wherever their caller runs. -/
def lifecycleOpThread (op : LifecycleOp) : ExecThread :=
  calleeThread .guiThread (lifecycleDispatch op)

/-- Number of forceful-kill signal sends in an event trace. -/
def countKillSends (ev : List Event) : Nat :=
  ev.countP (fun e =>
    match e with
    | .sigSent _ .kill _ => true
    | _ => false)

/-- The new-process-group flags of the successful spawns in a trace. -/
def spawnedGroupFlags (ev : List Event) : List Bool :=
  ev.filterMap (fun e =>
    match e with
    | .spawned _ _ g => some g
    | _ => none)

/-- Whether an event is a signal send that is not group-directed
(true for every non-signal event). -/
def sigIsGroupDirected (e : Event) : Bool :=
  match e with
  | .sigSent _ _ g => g
  | _ => true

/-- The names of the process-creation attempts in a trace, in order. -/
def attemptNames (ev : List Event) : List String :=
  ev.filterMap (fun e =>
    match e with
    | .spawnAttempt n => some n
    | _ => none)

theorem hasEntry_insertEntry (reg : Registry) (m n : String) (p : Proc) :
    hasEntry (insertEntry reg m p) n = (hasEntry reg n || decide (m = n)) := by
  simp [hasEntry, insertEntry]

theorem hasEntry_removeEntry_self (reg : Registry) (n : String) :
    hasEntry (removeEntry reg n) n = false := by
  simp only [hasEntry, removeEntry, List.any_eq_false]
  intro pr hpr
  have := List.of_mem_filter hpr
  simpa using this

theorem lookupEntry_eq_none (reg : Registry) (n : String)
    (h : hasEntry reg n = false) : lookupEntry reg n = none := by
  simp only [hasEntry, List.any_eq_false] at h
  simp only [lookupEntry, Option.map_eq_none', List.find?_eq_none]
  intro pr hpr
  exact h pr hpr

theorem attemptNames_append (ev1 ev2 : List Event) :
    attemptNames (ev1 ++ ev2) = attemptNames ev1 ++ attemptNames ev2 := by
  simp [attemptNames]

theorem hasEntry_autoStart_fold (f : String → Proc) (names : List String) :
    ∀ (acc : Registry × List Event) (n : String),
      hasEntry ((names.foldl (autoStartStep (fun m => some (f m))) acc).1) n =
        (hasEntry acc.1 n || decide (n ∈ names)) := by
  induction names with
  | nil => intro acc n; simp
  | cons m rest ih =>
      intro acc n
      rw [List.foldl_cons, ih]
      by_cases hm : hasEntry acc.1 m
      · by_cases hnm : n = m
        · subst hnm
          simp [autoStartStep, start_service_v4, hm]
        · simp [autoStartStep, start_service_v4, hm, List.mem_cons, hnm]
      · by_cases hnm : n = m
        · subst hnm
          simp [autoStartStep, start_service_v4, hm, hasEntry_insertEntry]
        · have hmn : m ≠ n := fun hEq => hnm hEq.symm
          simp [autoStartStep, start_service_v4, hm, hasEntry_insertEntry,
            List.mem_cons, hnm, hmn]

theorem attempts_autoStart_fold (f : String → Proc) (names : List String) :
    ∀ (acc : Registry × List Event),
      (∀ n ∈ names, hasEntry acc.1 n = false) → names.Nodup →
      attemptNames ((names.foldl (autoStartStep (fun m => some (f m))) acc).2) =
        attemptNames acc.2 ++ names := by
  induction names with
  | nil => intro acc _ _; simp
  | cons m rest ih =>
      intro acc hfresh hnd
      rw [List.foldl_cons]
      have hm : hasEntry acc.1 m = false := hfresh m (List.mem_cons_self m rest)
      have hstep : autoStartStep (fun x => some (f x)) acc m =
          (insertEntry acc.1 m (f m),
           acc.2 ++ [Event.spawnAttempt m, Event.spawned m (f m).pid true,
             Event.logMsg (LogMsg.started m)]) := by
        simp [autoStartStep, start_service_v4, hm]
      rw [hstep, ih]
      · rw [attemptNames_append]
        simp [attemptNames]
      · intro n hn
        rw [hasEntry_insertEntry]
        have h1 : hasEntry acc.1 n = false :=
          hfresh n (List.mem_cons_of_mem m hn)
        have h2 : m ≠ n := by
          intro hEq
          exact (List.nodup_cons.mp hnd).1 (hEq ▸ hn)
        simp [h1, h2]
      · exact (List.nodup_cons.mp hnd).2

/-- Claim C1, counterexample: the claim covers `stop_service` of
`claude_v3.py` as well (cited source), but there a process that ignores
the graceful terminate for longer than the grace period is never
forcefully killed — no kill is sent at all — and the registry entry is
kept, so a start followed by a stop ends with the name still present. -/
theorem claim1_counterexample :
    hasEntry (stop_service_v3
      (start_service_v3 (fun _ => some (Proc.mk 7 true false false false)) [] "a").1
      "a").1 "a" = true ∧
    countKillSends (stop_service_v3
      (start_service_v3 (fun _ => some (Proc.mk 7 true false false false)) [] "a").1
      "a").2 = 0 := by decide

/-- Claim C1, amended: the claimed termination protocol is the one of
`stop_service` in `claude_v4.py` only (assuming signal delivery itself
does not fail): the first event is the group-directed graceful
terminate, a forceful kill is sent exactly when (and exactly once when)
the bounded 5-second wait times out, the unbounded wait occurs exactly
in that timeout case, and afterwards the name is absent from the
registry.  In `claude_v3.py`, by contrast, a stop that times out sends
no kill and leaves the name registered. -/
theorem claim1_theorem (reg : Registry) (n : String) (p : Proc)
    (h : lookupEntry reg n = some p) (hg : p.gracefulSigFails = false)
    (hf : p.forcefulSigFails = false) :
    (stop_service_v4 reg n).2.head? = some (Event.sigSent p.pid Sig.term true) ∧
    countKillSends (stop_service_v4 reg n).2 =
      (if p.exitsInGrace then 0 else 1) ∧
    (Event.waitUnbounded ∈ (stop_service_v4 reg n).2 ↔ p.exitsInGrace = false) ∧
    hasEntry (stop_service_v4 reg n).1 n = false := by
  cases hE : p.exitsInGrace <;>
    simp [stop_service_v4, h, hg, hf, hE, countKillSends,
      hasEntry_removeEntry_self]

/-- Witness for claim C1's amended theorem: a process that exits within
the grace period receives the graceful terminate and no kill. -/
theorem claim1_witness :
    lookupEntry [("a", Proc.mk 4 true true false false)] "a" =
      some (Proc.mk 4 true true false false) ∧
    (Proc.mk 4 true true false false).gracefulSigFails = false ∧
    (Proc.mk 4 true true false false).forcefulSigFails = false ∧
    ((stop_service_v4 [("a", Proc.mk 4 true true false false)] "a").2.head? =
      some (Event.sigSent (Proc.mk 4 true true false false).pid Sig.term true) ∧
     countKillSends (stop_service_v4 [("a", Proc.mk 4 true true false false)] "a").2 =
      (if (Proc.mk 4 true true false false).exitsInGrace then 0 else 1) ∧
     (Event.waitUnbounded ∈
        (stop_service_v4 [("a", Proc.mk 4 true true false false)] "a").2 ↔
      (Proc.mk 4 true true false false).exitsInGrace = false) ∧
     hasEntry (stop_service_v4 [("a", Proc.mk 4 true true false false)] "a").1 "a"
       = false) :=
  ⟨by decide, rfl, rfl,
   claim1_theorem [("a", Proc.mk 4 true true false false)] "a"
     (Proc.mk 4 true true false false) (by decide) rfl rfl⟩

/-- Claim C7, counterexample: with descriptor list `a,b,c` and
auto-start list `a,d`, the name `d` is outside the descriptor set, yet
the auto-start sweep of `claude_v4.py` — which never compares the
auto-start names against the `microservices` configuration — starts and
registers it instead of reporting a configuration error. -/
theorem claim7_counterexample :
    parseList "a,b,c" = ["a", "b", "c"] ∧
    ¬ ("d" ∈ parseList "a,b,c") ∧
    hasEntry (auto_start_services
      (fun _ => some (Proc.mk 3 true true false false)) "a,d" []).1 "d" = true ∧
    attemptNames (auto_start_services
      (fun _ => some (Proc.mk 3 true true false false)) "a,d" []).2
      = ["a", "d"] := by decide

/-- Claim C7, amended: the auto-start sweep invokes start exactly once
per configured auto-start name, in the listed order (for distinct names
with successful spawns, the spawn attempts are exactly the parsed list,
in order), but performs no validation against the Service Descriptor
Set: starting from an empty registry, a name has a registry entry after
the sweep exactly when it is in the auto-start list, regardless of
whether it is a descriptor name. -/
theorem claim7_theorem (f : String → Proc) (cfg : String) (n : String)
    (h : (parseList cfg).Nodup) :
    hasEntry (auto_start_services (fun m => some (f m)) cfg []).1 n =
      decide (n ∈ parseList cfg) ∧
    attemptNames (auto_start_services (fun m => some (f m)) cfg []).2 =
      parseList cfg := by
  constructor
  · rw [auto_start_services, hasEntry_autoStart_fold]
    rfl
  · rw [auto_start_services,
      attempts_autoStart_fold f (parseList cfg) ([], [])
        (fun n _ => rfl) h]
    rfl

/-- Witness for claim C7's amended theorem on the auto-start list
`a,d`: the non-descriptor name `d` ends up registered. -/
theorem claim7_witness :
    (parseList "a,d").Nodup ∧
    (hasEntry (auto_start_services
        (fun _ => some (Proc.mk 3 true true false false)) "a,d" []).1 "d" =
      decide ("d" ∈ parseList "a,d") ∧
     attemptNames (auto_start_services
        (fun _ => some (Proc.mk 3 true true false false)) "a,d" []).2 =
      parseList "a,d") :=
  ⟨by decide,
   claim7_theorem (fun _ => Proc.mk 3 true true false false) "a,d" "d" (by decide)⟩

/-- Claim C8, counterexample: in `claude_v3.py` (cited source) the
spawn has no `preexec_fn`, so the child is not placed in a new process
group, and the stop path signals only the immediate child
(`process.terminate()`), not the group — the claimed group-directed
signalling does not hold there. -/
theorem claim8_counterexample :
    spawnedGroupFlags (start_service_v3
      (fun _ => some (Proc.mk 7 true true false false)) [] "a").2 = [false] ∧
    (stop_service_v3 [("a", Proc.mk 7 true true false false)] "a").2.all
      sigIsGroupDirected = false := by decide

/-- Claim C8, amended: in `claude_v4.py` on POSIX platforms (where
`os.setsid` and `os.killpg` exist) every successful spawn places the
child in a new session and every signal `stop_service` sends is
group-directed; in `claude_v3.py` (and on platforms without process
groups) the child stays in the parent's group and termination targets
only the immediate child. -/
theorem claim8_theorem (f : String → Proc) (m : String) (reg : Registry)
    (n : String) (p : Proc) (h1 : lookupEntry reg n = some p)
    (h2 : p.gracefulSigFails = false) :
    spawnedGroupFlags (start_service_v4 (fun x => some (f x)) [] m).2 = [true] ∧
    (stop_service_v4 reg n).2.all sigIsGroupDirected = true := by
  constructor
  · simp [start_service_v4, hasEntry, spawnedGroupFlags]
  · cases hE : p.exitsInGrace <;> cases hF : p.forcefulSigFails <;>
      simp [stop_service_v4, h1, h2, hE, hF, sigIsGroupDirected]

/-- Witness for claim C8's amended theorem at a concrete spawn and a
concrete registered process. -/
theorem claim8_witness :
    lookupEntry [("a", Proc.mk 8 true true false false)] "a" =
      some (Proc.mk 8 true true false false) ∧
    (Proc.mk 8 true true false false).gracefulSigFails = false ∧
    (spawnedGroupFlags (start_service_v4
        (fun _ => some (Proc.mk 8 true true false false)) [] "b").2 = [true] ∧
     (stop_service_v4 [("a", Proc.mk 8 true true false false)] "a").2.all
       sigIsGroupDirected = true) :=
  ⟨by decide, rfl,
   claim8_theorem (fun _ => Proc.mk 8 true true false false) "b"
     [("a", Proc.mk 8 true true false false)] "a"
     (Proc.mk 8 true true false false) (by decide) rfl⟩

/-- Claim C2: `cleanup_all_processes` (the shutdown coordinator) is
idempotent — after one completed call the state has `is_closing` set,
and every subsequent sequential call, from any trigger (the cleanup
routine itself as the exit hook, the window-close event, the stop-all
action, the OS-signal handler), performs no signaling, does not iterate
the registry, and returns immediately with the state unchanged. -/
theorem claim2_theorem (st : SupState) :
    cleanup_all_processes (cleanup_all_processes st).1 =
      ((cleanup_all_processes st).1, []) ∧
    (cleanup_all_processes st).1.isClosing = true ∧
    closeEvent (cleanup_all_processes st).1 = ((cleanup_all_processes st).1, []) ∧
    stop_all_services (cleanup_all_processes st).1 =
      ((cleanup_all_processes st).1, []) ∧
    (signal_handler_step (cleanup_all_processes st).1).2 = [Event.appQuit] := by
  cases h : st.isClosing <;>
    simp [cleanup_all_processes, closeEvent, stop_all_services,
      signal_handler_step, h]

/-- Claim C3, counterexample: for a process that is still alive and
whose graceful signal delivery fails (unkillable), the claim says the
registry entry is kept; but `stop_service` of `claude_v4.py` removes the
entry unconditionally in its `except` branch, reporting only the
failure message. -/
theorem claim3_counterexample :
    (Proc.mk 9 true false true true).alive = true ∧
    hasEntry (stop_service_v4 [("a", Proc.mk 9 true false true true)] "a").1 "a"
      = false ∧
    (stop_service_v4 [("a", Proc.mk 9 true false true true)] "a").2 =
      [Event.logMsg (LogMsg.failedStop "a")] := by decide

/-- Claim C3, amended: when signal delivery during `stop_service`
(`claude_v4.py`) fails, the failure is reported distinctly from the
ordinary success path, and the registry entry is removed
unconditionally — no liveness inspection is performed and the entry is
never kept, whether or not the process is still alive. -/
theorem claim3_theorem (reg : Registry) (n : String) (p : Proc)
    (h : lookupEntry reg n = some p) (hg : p.gracefulSigFails = true) :
    stop_service_v4 reg n =
      (removeEntry reg n, [Event.logMsg (LogMsg.failedStop n)]) ∧
    LogMsg.failedStop n ≠ LogMsg.stopped n := by
  constructor
  · simp [stop_service_v4, h, hg]
  · simp

/-- Witness for claim C3's amended theorem at a concrete registry. -/
theorem claim3_witness :
    lookupEntry [("a", Proc.mk 9 true false true true)] "a" =
      some (Proc.mk 9 true false true true) ∧
    (Proc.mk 9 true false true true).gracefulSigFails = true ∧
    (stop_service_v4 [("a", Proc.mk 9 true false true true)] "a" =
      (removeEntry [("a", Proc.mk 9 true false true true)] "a",
       [Event.logMsg (LogMsg.failedStop "a")]) ∧
     LogMsg.failedStop "a" ≠ LogMsg.stopped "a") :=
  ⟨by decide, rfl,
   claim3_theorem [("a", Proc.mk 9 true false true true)] "a"
     (Proc.mk 9 true false true true) (by decide) rfl⟩

/-- Claim C4, counterexample: the claim says the installed handler runs
the shutdown routine on SIGINT (Ctrl-C); but `main` of `claude_v4.py`
resets SIGINT to `signal.SIG_DFL` after installing `signal_handler`, so
the disposition left in place for SIGINT is the OS default, which
terminates the process without running the shutdown routine. -/
theorem claim4_counterexample :
    installedHandler OsSig.sigint = Handler.defaultDisposition ∧
    Handler.defaultDisposition ≠ Handler.gracefulShutdownHandler := by decide

/-- Claim C4, amended: `main` installs the graceful-shutdown handler on
both SIGINT and SIGTERM but then resets SIGINT to the OS default
disposition, so only SIGTERM retains the handler; `signal_handler`
itself does run `cleanup_all_processes` synchronously before requesting
application quit (the quit event follows the cleanup events, and the
state is left in the shutting-down condition). -/
theorem claim4_theorem :
    installedHandler OsSig.sigterm = Handler.gracefulShutdownHandler ∧
    installedHandler OsSig.sigint = Handler.defaultDisposition ∧
    ∀ st : SupState,
      signal_handler_step st =
        ((cleanup_all_processes st).1,
         (cleanup_all_processes st).2 ++ [Event.appQuit]) ∧
      (signal_handler_step st).1.isClosing = true := by
  refine ⟨by decide, by decide, fun st => ⟨rfl, ?_⟩⟩
  cases h : st.isClosing <;> simp [signal_handler_step, cleanup_all_processes, h]

/-- Claim C5: when the spawn fails, `start_service` (`claude_v4.py`)
reports the failure, makes exactly one spawn attempt (no automatic
retry), and leaves the registry exactly as it was — no entry is created
for the name, because the registry write happens only after a
successful `Popen`. -/
theorem claim5_theorem (spawn : String → Option Proc) (reg : Registry)
    (n : String) (h1 : hasEntry reg n = false) (h2 : spawn n = none) :
    start_service_v4 spawn reg n =
      (reg, [Event.spawnAttempt n, Event.logMsg (LogMsg.failedStart n)]) ∧
    attemptNames (start_service_v4 spawn reg n).2 = [n] := by
  simp [start_service_v4, h1, h2, attemptNames]

/-- Witness for claim C5 at a concrete failing spawn. -/
theorem claim5_witness :
    hasEntry ([] : Registry) "a" = false ∧
    (fun _ : String => (none : Option Proc)) "a" = none ∧
    (start_service_v4 (fun _ => none) ([] : Registry) "a" =
      ([], [Event.spawnAttempt "a", Event.logMsg (LogMsg.failedStart "a")]) ∧
     attemptNames (start_service_v4 (fun _ => none) ([] : Registry) "a").2
       = ["a"]) :=
  ⟨rfl, rfl, claim5_theorem _ [] "a" rfl rfl⟩

/-- Claim C6: for a name already present in the registry,
`start_service` (both `claude_v4.py` and `claude_v3.py`) reports
"already running", makes no spawn attempt, and returns the registry
unchanged — the name still maps to the same process record. -/
theorem claim6_theorem (spawn : String → Option Proc) (reg : Registry)
    (n : String) (h : hasEntry reg n = true) :
    start_service_v4 spawn reg n =
      (reg, [Event.logMsg (LogMsg.alreadyRunning n)]) ∧
    start_service_v3 spawn reg n =
      (reg, [Event.logMsg (LogMsg.alreadyRunning n)]) ∧
    attemptNames (start_service_v4 spawn reg n).2 = [] := by
  simp [start_service_v4, start_service_v3, h, attemptNames]

/-- Witness for claim C6 at a concrete one-entry registry. -/
theorem claim6_witness :
    hasEntry [("a", Proc.mk 2 true true false false)] "a" = true ∧
    (start_service_v4 (fun _ => none) [("a", Proc.mk 2 true true false false)] "a" =
      ([("a", Proc.mk 2 true true false false)],
       [Event.logMsg (LogMsg.alreadyRunning "a")]) ∧
     start_service_v3 (fun _ => none) [("a", Proc.mk 2 true true false false)] "a" =
      ([("a", Proc.mk 2 true true false false)],
       [Event.logMsg (LogMsg.alreadyRunning "a")]) ∧
     attemptNames
       (start_service_v4 (fun _ => none)
         [("a", Proc.mk 2 true true false false)] "a").2 = []) :=
  ⟨by decide, claim6_theorem _ _ "a" (by decide)⟩

/-- Claim C9, counterexample: the claim says lifecycle operations never
execute on the thread serving user-interaction events; but in
`claude_v4.py` the stop operation is dispatched as a direct call from
the button slot, so it — including its bounded blocking wait — runs on
the GUI event thread. -/
theorem claim9_counterexample :
    lifecycleOpThread LifecycleOp.stopOne = ExecThread.guiThread ∧
    ExecThread.guiThread ≠ ExecThread.workerThread ∧
    (stop_service_v4 [("a", Proc.mk 5 true true false false)] "a").2.contains
      (Event.waitBounded 5) = true := by decide

/-- Claim C9, amended: all four lifecycle operations of `claude_v4.py`
(start/stop of one service, start-all, stop-all), including their
blocking waits, execute via direct synchronous calls on the Qt GUI
event thread; the only work dispatched to a dedicated worker thread is
the configuration loader. -/
theorem claim9_theorem :
    (∀ op : LifecycleOp, lifecycleOpThread op = ExecThread.guiThread) ∧
    calleeThread ExecThread.guiThread configLoaderDispatch =
      ExecThread.workerThread :=
  ⟨fun _ => rfl, rfl⟩

/-- Claim C10: once the closing flag is set, `stop_all_services` and
`cleanup_all_processes` (and the close event) return immediately
without stopping anything, yet `start_service` — which never consults
the flag — still spawns and registers a new process for an unregistered
name; that process is therefore never terminated by any subsequent
stop-all or cleanup call. -/
theorem claim10_theorem (f : String → Proc) (st : SupState) (n : String)
    (h1 : st.isClosing = true) (h2 : hasEntry st.reg n = false) :
    hasEntry (start_service_state (fun m => some (f m)) st n).1.reg n = true ∧
    stop_all_services (start_service_state (fun m => some (f m)) st n).1 =
      ((start_service_state (fun m => some (f m)) st n).1, []) ∧
    cleanup_all_processes (start_service_state (fun m => some (f m)) st n).1 =
      ((start_service_state (fun m => some (f m)) st n).1, []) ∧
    closeEvent (start_service_state (fun m => some (f m)) st n).1 =
      ((start_service_state (fun m => some (f m)) st n).1, []) := by
  have hreg : (start_service_state (fun m => some (f m)) st n).1 =
      ⟨insertEntry st.reg n (f n), st.isClosing⟩ := by
    simp [start_service_state, start_service_v4, h2]
  rw [hreg]
  refine ⟨?_, ?_, ?_, ?_⟩
  · simp [hasEntry_insertEntry]
  · simp [stop_all_services, h1]
  · simp [cleanup_all_processes, h1]
  · simp [closeEvent, h1]

/-- Witness for claim C10: a service started after shutdown has begun
(closing flag set, empty registry) is registered and survives every
later teardown call. -/
theorem claim10_witness :
    (SupState.mk [] true).isClosing = true ∧
    hasEntry (SupState.mk [] true).reg "a" = false ∧
    (hasEntry (start_service_state (fun _ => some (Proc.mk 1 true true false false))
        (SupState.mk [] true) "a").1.reg "a" = true ∧
     stop_all_services (start_service_state
        (fun _ => some (Proc.mk 1 true true false false))
        (SupState.mk [] true) "a").1 =
       ((start_service_state (fun _ => some (Proc.mk 1 true true false false))
          (SupState.mk [] true) "a").1, []) ∧
     cleanup_all_processes (start_service_state
        (fun _ => some (Proc.mk 1 true true false false))
        (SupState.mk [] true) "a").1 =
       ((start_service_state (fun _ => some (Proc.mk 1 true true false false))
          (SupState.mk [] true) "a").1, []) ∧
     closeEvent (start_service_state
        (fun _ => some (Proc.mk 1 true true false false))
        (SupState.mk [] true) "a").1 =
       ((start_service_state (fun _ => some (Proc.mk 1 true true false false))
          (SupState.mk [] true) "a").1, [])) :=
  ⟨rfl, rfl, claim10_theorem _ _ "a" rfl rfl⟩

end MCP
